import Mathlib

/-!
Verification of the environmental-grid cache (environmental-data-cache.js)
and the boat-animation grid reader (boat.js).

The JavaScript code is shallowly embedded over the real numbers:

* JS numbers are modelled as real numbers `ℝ` (the arithmetic the code
  performs is exact on the values the claims are about).
* A JSON-parsed channel grid is a `List (List ℝ)`; an absent row or cell
  is an out-of-range index (JSON-parsed arrays contain no undefined
  entries, so absence arises from arrays shorter than the axis).  An
  absent channel is `none` in the `String → Option` channel map.
* A returned JS object is a structure whose fields are `Option ℝ`;
  `none` models a key that is absent (reading it yields undefined) or
  explicitly null.
* `Math.atan2 y x` is `Complex.arg ⟨x, y⟩`, `Math.round` is Mathlib's
  `round` (both round halves toward positive infinity), and the JS
  remainder `%` (sign of the dividend) is `jsMod` below.
* The debug counter and `console` logging of `getData` do not affect the
  returned record and are omitted; the one observable side effect of
  logging — the success log of `initialize()` dereferencing
  `this.data.lons.length` — is modelled explicitly in `initGrid`.
-/

open Real

/-- Element access `arr[i]` for an in-range index of a JS number array. -/
noncomputable def nth (arr : List ℝ) (i : ℕ) : ℝ := arr.getD i 0

/-- The adjustment after the binary-search loop of `findClosestIndex`
(environmental-data-cache.js lines 32–37): with `low` the final value of
the loop variable, return `low - 1` when `low > 0` and either `low` is
past the end or the element before `low` is strictly closer. -/
noncomputable def fciPost (arr : List ℝ) (target : ℝ) (low : ℕ) : ℕ :=
  if 0 < low ∧ (low = arr.length ∨ |nth arr low - target| > |nth arr (low - 1) - target|) then
    low - 1
  else
    low

/-- The binary-search loop of `findClosestIndex` (lines 24–31).  The JS
variable `high` (which can reach `-1`) is represented as `hi1 = high + 1`,
so the loop guard `low <= high` becomes `low < hi1` and `mid =
Math.floor((low + high) / 2)` becomes `(low + hi1 - 1) / 2`. -/
noncomputable def fciGo (arr : List ℝ) (target : ℝ) (low hi1 : ℕ) : ℕ :=
  if h : low < hi1 then
    let mid := (low + hi1 - 1) / 2
    if nth arr mid = target then mid
    else if nth arr mid < target then fciGo arr target (mid + 1) hi1
    else fciGo arr target low mid
  else fciPost arr target low
termination_by hi1 - low
decreasing_by
  · omega
  · omega

/-- `findClosestIndex(arr, target)` of environmental-data-cache.js
(also duplicated verbatim inside `getEnvDataAtPoint` of boat.js):
binary search for the index of the element closest to `target`. -/
noncomputable def findClosestIndex (arr : List ℝ) (target : ℝ) : ℕ :=
  fciGo arr target 0 arr.length

/-- The axis arrays the cache searches are strictly ascending
(index-wise formulation). -/
def StrictAsc (arr : List ℝ) : Prop :=
  ∀ i j, i < j → j < arr.length → nth arr i < nth arr j

lemma strictAsc_le (arr : List ℝ) (hs : StrictAsc arr) {i j : ℕ} (hij : i ≤ j)
    (hj : j < arr.length) : nth arr i ≤ nth arr j := by
  rcases Nat.lt_or_ge i j with h | h
  · exact (hs i j h hj).le
  · have : i = j := le_antisymm hij h
    simp [this]

lemma strictAsc_inj (arr : List ℝ) (hs : StrictAsc arr) {i j : ℕ} (hi : i < arr.length)
    (hj : j < arr.length) (hij : nth arr i = nth arr j) : i = j := by
  rcases Nat.lt_trichotomy i j with h | h | h
  · exact absurd hij (ne_of_lt (hs i j h hj))
  · exact h
  · exact absurd hij.symm (ne_of_lt (hs j i h hi))

lemma fciPost_spec (arr : List ℝ) (target : ℝ) (hs : StrictAsc arr) (hne : arr.length ≠ 0)
    (L : ℕ) (hL : L ≤ arr.length)
    (hlo : ∀ k, k < L → nth arr k < target)
    (hup : ∀ k, L ≤ k → k < arr.length → target < nth arr k) :
    fciPost arr target L < arr.length ∧
    (∀ j, j < arr.length → |nth arr (fciPost arr target L) - target| ≤ |nth arr j - target|) ∧
    (∀ j, j < arr.length → |nth arr j - target| = |nth arr (fciPost arr target L) - target| →
      j ≤ fciPost arr target L) := by
  have hlen : 0 < arr.length := Nat.pos_of_ne_zero hne
  rcases Nat.eq_zero_or_pos L with rfl | hLpos
  · -- L = 0 : every element lies above the target; the result 0 stands.
    have hres : fciPost arr target 0 = 0 := by simp [fciPost]
    rw [hres]
    have h0 : target < nth arr 0 := hup 0 (le_refl _) hlen
    refine ⟨hlen, ?_, ?_⟩
    · intro j hj
      have hj0 : nth arr 0 ≤ nth arr j := strictAsc_le arr hs (Nat.zero_le j) hj
      have h1 : |nth arr 0 - target| = nth arr 0 - target := abs_of_pos (by linarith)
      have h2 : |nth arr j - target| = nth arr j - target :=
        abs_of_pos (by linarith [hup j (Nat.zero_le j) hj])
      rw [h1, h2]; linarith
    · intro j hj htie
      have hjt : target < nth arr j := hup j (Nat.zero_le j) hj
      have h1 : |nth arr 0 - target| = nth arr 0 - target := abs_of_pos (by linarith)
      have h2 : |nth arr j - target| = nth arr j - target := abs_of_pos (by linarith)
      rw [h1, h2] at htie
      have : nth arr j = nth arr 0 := by linarith
      exact (strictAsc_inj arr hs hj hlen this).le
  · rcases Nat.lt_or_ge L arr.length with hLlt | hLge
    · -- 0 < L < length : candidates L-1 and L straddle the target.
      have hd1 : nth arr (L - 1) < target := hlo (L - 1) (by omega)
      have hd2 : target < nth arr L := hup L (le_refl _) hLlt
      have habs1 : |nth arr (L - 1) - target| = target - nth arr (L - 1) := by
        rw [abs_of_neg (by linarith)]; ring
      have habs2 : |nth arr L - target| = nth arr L - target := abs_of_pos (by linarith)
      by_cases hgt : |nth arr L - target| > |nth arr (L - 1) - target|
      · have hres : fciPost arr target L = L - 1 := by
          rw [fciPost, if_pos ⟨hLpos, Or.inr hgt⟩]
        rw [hres]
        refine ⟨by omega, ?_, ?_⟩
        · intro j hj
          rcases Nat.lt_or_ge j L with hjL | hjL
          · have hjle : j ≤ L - 1 := by omega
            have hmono : nth arr j ≤ nth arr (L - 1) := strictAsc_le arr hs hjle (by omega)
            have hjlt : nth arr j < target := hlo j hjL
            have habsj : |nth arr j - target| = target - nth arr j := by
              rw [abs_of_neg (by linarith)]; ring
            rw [habs1, habsj]; linarith
          · have hmono : nth arr L ≤ nth arr j := strictAsc_le arr hs hjL hj
            have hjgt : target < nth arr j := hup j hjL hj
            have habsj : |nth arr j - target| = nth arr j - target := abs_of_pos (by linarith)
            rw [habs1, habsj]; rw [habs1, habs2] at hgt; linarith
        · intro j hj htie
          rcases Nat.lt_or_ge j L with hjL | hjL
          · have hjlt : nth arr j < target := hlo j hjL
            have habsj : |nth arr j - target| = target - nth arr j := by
              rw [abs_of_neg (by linarith)]; ring
            rw [habs1, habsj] at htie
            have : nth arr j = nth arr (L - 1) := by linarith
            exact (strictAsc_inj arr hs hj (by omega) this) ▸ le_refl _
          · -- impossible: those distances strictly exceed the chosen one
            have hmono : nth arr L ≤ nth arr j := strictAsc_le arr hs hjL hj
            have hjgt : target < nth arr j := hup j hjL hj
            have habsj : |nth arr j - target| = nth arr j - target := abs_of_pos (by linarith)
            rw [habs1, habsj] at htie
            rw [habs1, habs2] at hgt
            linarith
      · have hres : fciPost arr target L = L := by
          rw [fciPost, if_neg]
          rintro ⟨-, h | h⟩
          · omega
          · exact hgt h
        rw [hres]
        have hle : |nth arr L - target| ≤ |nth arr (L - 1) - target| := not_lt.mp hgt
        refine ⟨hLlt, ?_, ?_⟩
        · intro j hj
          rcases Nat.lt_or_ge j L with hjL | hjL
          · have hjle : j ≤ L - 1 := by omega
            have hmono : nth arr j ≤ nth arr (L - 1) := strictAsc_le arr hs hjle (by omega)
            have hjlt : nth arr j < target := hlo j hjL
            have habsj : |nth arr j - target| = target - nth arr j := by
              rw [abs_of_neg (by linarith)]; ring
            rw [habs1, habs2] at hle
            rw [habs2, habsj]; linarith
          · have hmono : nth arr L ≤ nth arr j := strictAsc_le arr hs hjL hj
            have hjgt : target < nth arr j := hup j hjL hj
            have habsj : |nth arr j - target| = nth arr j - target := abs_of_pos (by linarith)
            rw [habs2, habsj]; linarith
        · intro j hj htie
          rcases Nat.lt_or_ge j L with hjL | hjL
          · exact hjL.le
          · have hmono : nth arr L ≤ nth arr j := strictAsc_le arr hs hjL hj
            have hjgt : target < nth arr j := hup j hjL hj
            have habsj : |nth arr j - target| = nth arr j - target := abs_of_pos (by linarith)
            rw [habs2, habsj] at htie
            have : nth arr j = nth arr L := by linarith
            exact (strictAsc_inj arr hs hj hLlt this).le
    · -- L = length : every element lies below the target; clamp to the last index.
      have hLeq : L = arr.length := le_antisymm hL hLge
      have hres : fciPost arr target L = L - 1 := by
        rw [fciPost, if_pos ⟨hLpos, Or.inl hLeq⟩]
      rw [hres]
      have hlast : nth arr (L - 1) < target := hlo (L - 1) (by omega)
      refine ⟨by omega, ?_, ?_⟩
      · intro j hj
        have hjlt : nth arr j < target := hlo j (by omega)
        have hmono : nth arr j ≤ nth arr (L - 1) := strictAsc_le arr hs (by omega) (by omega)
        have habsj : |nth arr j - target| = target - nth arr j := by
          rw [abs_of_neg (by linarith)]; ring
        have habsl : |nth arr (L - 1) - target| = target - nth arr (L - 1) := by
          rw [abs_of_neg (by linarith)]; ring
        rw [habsj, habsl]; linarith
      · intro j hj htie
        have hjlt : nth arr j < target := hlo j (by omega)
        have habsj : |nth arr j - target| = target - nth arr j := by
          rw [abs_of_neg (by linarith)]; ring
        have habsl : |nth arr (L - 1) - target| = target - nth arr (L - 1) := by
          rw [abs_of_neg (by linarith)]; ring
        rw [habsj, habsl] at htie
        have : nth arr j = nth arr (L - 1) := by linarith
        exact (strictAsc_inj arr hs hj (by omega) this).le

lemma fciGo_spec (arr : List ℝ) (target : ℝ) (hs : StrictAsc arr) :
    ∀ d low hi1, hi1 - low ≤ d → low ≤ hi1 → hi1 ≤ arr.length →
    (∀ k, k < low → nth arr k < target) →
    (∀ k, hi1 ≤ k → k < arr.length → target < nth arr k) →
    (∃ m, fciGo arr target low hi1 = m ∧ m < arr.length ∧ nth arr m = target) ∨
    (∃ L, fciGo arr target low hi1 = fciPost arr target L ∧ L ≤ arr.length ∧
      (∀ k, k < L → nth arr k < target) ∧
      (∀ k, L ≤ k → k < arr.length → target < nth arr k)) := by
  intro d
  induction d with
  | zero =>
    intro low hi1 hd hlh hlen hlo hup
    have hEq : low = hi1 := by omega
    right
    refine ⟨low, ?_, by omega, hlo, ?_⟩
    · rw [fciGo]; simp [hEq]
    · intro k hk hklen
      exact hup k (by omega) hklen
  | succ n ih =>
    intro low hi1 hd hlh hlen hlo hup
    by_cases h : low < hi1
    · have hmidlt : (low + hi1 - 1) / 2 < hi1 := by omega
      have hmidge : low ≤ (low + hi1 - 1) / 2 := by omega
      set mid := (low + hi1 - 1) / 2 with hmid
      have hmlen : mid < arr.length := lt_of_lt_of_le hmidlt hlen
      by_cases heq : nth arr mid = target
      · left
        refine ⟨mid, ?_, hmlen, heq⟩
        rw [fciGo]
        simp [h, heq, ← hmid]
      · by_cases hlt : nth arr mid < target
        · have hstep : fciGo arr target low hi1 = fciGo arr target (mid + 1) hi1 := by
            rw [fciGo]
            simp [h, heq, hlt, ← hmid]
          rw [hstep]
          refine ih (mid + 1) hi1 (by omega) (by omega) hlen ?_ hup
          intro k hk
          rcases Nat.lt_or_ge k mid with hkm | hkm
          · exact lt_trans (hs k mid hkm hmlen) hlt
          · have : k = mid := by omega
            rw [this]; exact hlt
        · have hgt : target < nth arr mid := lt_of_le_of_ne (not_lt.mp hlt) (fun e => heq e.symm)
          have hstep : fciGo arr target low hi1 = fciGo arr target low mid := by
            rw [fciGo]
            simp [h, heq, hlt, ← hmid]
          rw [hstep]
          refine ih low mid (by omega) (by omega) (by omega) hlo ?_
          intro k hk hklen
          rcases Nat.lt_or_ge mid k with hkm | hkm
          · exact lt_trans hgt (hs mid k hkm hklen)
          · have : k = mid := by omega
            rw [this]; exact hgt
    · right
      refine ⟨low, ?_, by omega, hlo, ?_⟩
      · rw [fciGo]; simp [h]
      · intro k hk hklen
        exact hup k (by omega) hklen

/-- JS truncation toward zero, as used by the remainder operator. -/
noncomputable def rtrunc (x : ℝ) : ℤ := if 0 ≤ x then ⌊x⌋ else ⌈x⌉

/-- The JS remainder `a % b` (sign of the dividend) for a finite dividend
and a positive divisor. -/
noncomputable def jsMod (a b : ℝ) : ℝ := a - b * rtrunc (a / b)

/-- `Math.atan2(y, x)`: the argument of the complex number `x + y*i`,
in `(-π, π]`. -/
noncomputable def atan2 (y x : ℝ) : ℝ := Complex.arg ⟨x, y⟩

lemma jsMod_eq_self_nonneg {q : ℝ} (h0 : 0 ≤ q) (h8 : q < 8) : jsMod q 8 = q := by
  have hq : (0:ℝ) ≤ q / 8 := by positivity
  have hq1 : q / 8 < 1 := by linarith
  have : ⌊q / 8⌋ = 0 := Int.floor_eq_zero_iff.mpr ⟨by linarith, hq1⟩
  simp [jsMod, rtrunc, hq, this]

lemma jsMod_eq_self_neg {q : ℝ} (h0 : -8 < q) (h8 : q < 0) : jsMod q 8 = q := by
  have hq : ¬ (0:ℝ) ≤ q / 8 := by
    intro h; nlinarith
  have hceil : ⌈q / 8⌉ = 0 := by
    rw [Int.ceil_eq_zero_iff]
    constructor
    · show (-1:ℝ) < q / 8
      linarith
    · show q / 8 ≤ 0
      linarith
  simp [jsMod, rtrunc, hq, hceil]

lemma jsMod_shift {r : ℝ} (h0 : 8 ≤ r) (h16 : r < 16) : jsMod r 8 = r - 8 := by
  have hq : (0:ℝ) ≤ r / 8 := by positivity
  have hfl : ⌊r / 8⌋ = 1 := by
    rw [Int.floor_eq_iff]
    push_cast
    constructor <;> linarith
  rw [jsMod, rtrunc, if_pos hq, hfl]
  norm_num

lemma jsMod_bounds (a : ℝ) : -8 < jsMod a 8 ∧ jsMod a 8 < 8 := by
  rw [jsMod, rtrunc]
  split_ifs with h
  · have h1 : (⌊a / 8⌋ : ℝ) ≤ a / 8 := Int.floor_le _
    have h2 : a / 8 - 1 < ⌊a / 8⌋ := Int.sub_one_lt_floor _
    constructor <;> nlinarith
  · have h1 : (a / 8 : ℝ) ≤ ⌈a / 8⌉ := Int.le_ceil _
    have h2 : (⌈a / 8⌉ : ℝ) < a / 8 + 1 := Int.ceil_lt_add_one _
    constructor <;> nlinarith

/-- The cardinal normalization `(cf % 8 + 8) % 8` of the source always
lands in `[0, 8)`. -/
lemma normCard_mem (cf : ℝ) :
    0 ≤ jsMod (jsMod cf 8 + 8) 8 ∧ jsMod (jsMod cf 8 + 8) 8 < 8 := by
  obtain ⟨hl, hr⟩ := jsMod_bounds cf
  rcases lt_or_ge (jsMod cf 8 + 8) 8 with h | h
  · rw [jsMod_eq_self_nonneg (by linarith) h]
    constructor <;> linarith
  · rw [jsMod_shift h (by linarith)]
    constructor <;> linarith

/-- The normalization is the identity on `[0, 8)`. -/
lemma normCard_of_nonneg {cf : ℝ} (h0 : 0 ≤ cf) (h8 : cf < 8) :
    jsMod (jsMod cf 8 + 8) 8 = cf := by
  rw [jsMod_eq_self_nonneg h0 h8, jsMod_shift (by linarith) (by linarith)]
  ring

/-- The normalization adds `8` on `(-8, 0)`. -/
lemma normCard_of_neg {cf : ℝ} (h0 : -8 < cf) (h8 : cf < 0) :
    jsMod (jsMod cf 8 + 8) 8 = cf + 8 := by
  rw [jsMod_eq_self_neg h0 h8, jsMod_eq_self_nonneg (by linarith) (by linarith)]

lemma round_mem_of_mem {q : ℝ} (h0 : 0 ≤ q) (h8 : q < 8) :
    0 ≤ round q ∧ round q ≤ 8 := by
  rw [round_eq]
  constructor
  · exact Int.floor_nonneg.mpr (by linarith)
  · have : (⌊q + 1 / 2⌋ : ℤ) < 9 := by
      rw [Int.floor_lt]
      push_cast
      linarith
    omega

/-- `atan2` of a point on the unit circle at angle `θ ∈ (-π, π]` is `θ`. -/
lemma atan2_cos_sin {θ : ℝ} (h1 : -π < θ) (h2 : θ ≤ π) :
    atan2 (Real.sin θ) (Real.cos θ) = θ := by
  rw [atan2]
  have hrepr : (⟨Real.cos θ, Real.sin θ⟩ : ℂ) =
      Complex.cos θ + Complex.sin θ * Complex.I := by
    apply Complex.ext <;>
      simp [Complex.cos_ofReal_re, Complex.sin_ofReal_re, Complex.cos_ofReal_im,
        Complex.sin_ofReal_im]
  rw [hrepr]
  exact Complex.arg_cos_add_sin_mul_I ⟨h1, h2⟩

/-- Scaling by a positive factor does not change `atan2`. -/
lemma atan2_smul {s y x : ℝ} (hs : 0 < s) : atan2 (s * y) (s * x) = atan2 y x := by
  rw [atan2, atan2]
  have hrepr : (⟨s * x, s * y⟩ : ℂ) = (s : ℂ) * ⟨x, y⟩ := by
    apply Complex.ext <;> simp
  rw [hrepr]
  exact Complex.arg_real_mul _ hs

/-- The wind vector averaging block of `getData`
(environmental-data-cache.js lines 159–183), as a function of the four
channel lookups.  The returned pair is `(final_wind_speed,
final_wind_cardinal)`. -/
noncomputable def windReconcile (speed_asc card_asc speed_dsc card_dsc : ℝ) : ℝ × ℝ :=
  if speed_asc > -9999 ∧ speed_dsc > -9999 ∧ (speed_asc > 0 ∨ speed_dsc > 0) then
    let angle_asc_rad := (90 - card_asc * 45) * (π / 180)
    let angle_dsc_rad := (90 - card_dsc * 45) * (π / 180)
    let x_asc := speed_asc * Real.cos angle_asc_rad
    let y_asc := speed_asc * Real.sin angle_asc_rad
    let x_dsc := speed_dsc * Real.cos angle_dsc_rad
    let y_dsc := speed_dsc * Real.sin angle_dsc_rad
    let x_avg := (x_asc + x_dsc) / 2
    let y_avg := (y_asc + y_dsc) / 2
    let final_wind_speed := Real.sqrt (x_avg ^ 2 + y_avg ^ 2)
    let final_angle_rad := atan2 y_avg x_avg
    let final_angle_deg := final_angle_rad * (180 / π)
    let cardinal_float := (90 - final_angle_deg) / 45
    (final_wind_speed, ((round (jsMod (jsMod cardinal_float 8 + 8) 8) : ℤ) : ℝ))
  else (0, 0)

lemma rad_deg (x : ℝ) : x * (π / 180) * (180 / π) = x := by
  field_simp

lemma windReconcile_equal (s card : ℝ) (hs : 0 < s) :
    windReconcile s card s card =
      (s, ((round (jsMod (jsMod ((90 - atan2 (Real.sin ((90 - card * 45) * (π / 180)))
        (Real.cos ((90 - card * 45) * (π / 180))) * (180 / π)) / 45) 8 + 8) 8) : ℤ) : ℝ)) := by
  simp only [windReconcile]
  rw [if_pos ⟨by linarith, by linarith, Or.inl hs⟩]
  have hx : (s * Real.cos ((90 - card * 45) * (π / 180)) +
      s * Real.cos ((90 - card * 45) * (π / 180))) / 2 =
      s * Real.cos ((90 - card * 45) * (π / 180)) := by ring
  have hy : (s * Real.sin ((90 - card * 45) * (π / 180)) +
      s * Real.sin ((90 - card * 45) * (π / 180))) / 2 =
      s * Real.sin ((90 - card * 45) * (π / 180)) := by ring
  rw [hx, hy]
  refine Prod.ext ?_ ?_
  · show Real.sqrt _ = s
    have hsq : (s * Real.cos ((90 - card * 45) * (π / 180))) ^ 2 +
        (s * Real.sin ((90 - card * 45) * (π / 180))) ^ 2 = s ^ 2 := by
      have h := Real.sin_sq_add_cos_sq ((90 - card * 45) * (π / 180))
      nlinarith [h]
    rw [hsq]
    exact Real.sqrt_sq hs.le
  · show ((round (jsMod (jsMod ((90 - atan2 _ _ * (180 / π)) / 45) 8 + 8) 8) : ℤ) : ℝ) = _
    rw [atan2_smul hs]

lemma windReconcile_equal_card {s card : ℝ} (hs : 0 < s) (hlo : -2 ≤ card) (hhi : card < 6) :
    windReconcile s card s card = (s, ((round (jsMod (jsMod card 8 + 8) 8) : ℤ) : ℝ)) := by
  rw [windReconcile_equal s card hs]
  have hpi : (0:ℝ) < π / 180 := by positivity
  have h1 : -π < (90 - card * 45) * (π / 180) := by
    have hfac : (0:ℝ) < (90 - card * 45) + 180 := by linarith
    have := mul_pos hfac hpi
    have hexp : ((90 - card * 45) + 180) * (π / 180) =
        (90 - card * 45) * (π / 180) + π := by ring
    linarith [hexp ▸ this]
  have h2 : (90 - card * 45) * (π / 180) ≤ π := by
    have hfac : (0:ℝ) ≤ 180 - (90 - card * 45) := by linarith
    have := mul_nonneg hfac hpi.le
    have hexp : (180 - (90 - card * 45)) * (π / 180) =
        π - (90 - card * 45) * (π / 180) := by ring
    linarith [hexp ▸ this]
  rw [atan2_cos_sin h1 h2, rad_deg]
  have hcf : (90 - (90 - card * 45)) / 45 = card := by ring
  rw [hcf]

lemma windReconcile_speed_nonneg (a b c d : ℝ) : 0 ≤ (windReconcile a b c d).1 := by
  simp only [windReconcile]
  split_ifs
  · exact Real.sqrt_nonneg _
  · exact le_refl _

lemma windReconcile_card_exists (a b c d : ℝ) :
    ∃ k : ℤ, (windReconcile a b c d).2 = (k : ℝ) ∧ 0 ≤ k ∧ k ≤ 8 := by
  simp only [windReconcile]
  split_ifs
  · refine ⟨round (jsMod (jsMod ((90 - atan2 ((a * Real.sin ((90 - b * 45) * (π / 180)) +
      c * Real.sin ((90 - d * 45) * (π / 180))) / 2)
      ((a * Real.cos ((90 - b * 45) * (π / 180)) +
      c * Real.cos ((90 - d * 45) * (π / 180))) / 2) * (180 / π)) / 45) 8 + 8) 8), rfl, ?_⟩
    obtain ⟨h0, h8⟩ := normCard_mem ((90 - atan2 ((a * Real.sin ((90 - b * 45) * (π / 180)) +
      c * Real.sin ((90 - d * 45) * (π / 180))) / 2)
      ((a * Real.cos ((90 - b * 45) * (π / 180)) +
      c * Real.cos ((90 - d * 45) * (π / 180))) / 2) * (180 / π)) / 45)
    exact round_mem_of_mem h0 h8
  · exact ⟨0, by norm_num⟩

lemma windReconcile_card_bounds (a b c d : ℝ) :
    0 ≤ (windReconcile a b c d).2 ∧ (windReconcile a b c d).2 ≤ 8 := by
  obtain ⟨k, hk, h0, h8⟩ := windReconcile_card_exists a b c d
  rw [hk]
  exact ⟨by exact_mod_cast h0, by exact_mod_cast h8⟩

/-- The cardinal normalization of the source equals the mathematical
`mod 8` into `[0, 8)` used by the specification text. -/
lemma normCard_eq_mod (cf : ℝ) : jsMod (jsMod cf 8 + 8) 8 = 8 * Int.fract (cf / 8) := by
  obtain ⟨h0, h8⟩ := normCard_mem cf
  have hf0 : 0 ≤ 8 * Int.fract (cf / 8) := by
    have := Int.fract_nonneg (cf / 8)
    linarith
  have hf8 : 8 * Int.fract (cf / 8) < 8 := by
    have := Int.fract_lt_one (cf / 8)
    linarith
  have hL : jsMod (jsMod cf 8 + 8) 8 =
      cf - 8 * ((rtrunc (cf / 8) + rtrunc ((jsMod cf 8 + 8) / 8) - 1 : ℤ) : ℝ) := by
    simp only [jsMod]
    push_cast
    ring
  have hR : 8 * Int.fract (cf / 8) = cf - 8 * ((⌊cf / 8⌋ : ℤ) : ℝ) := by
    rw [Int.fract]
    ring
  have hdiff : jsMod (jsMod cf 8 + 8) 8 - 8 * Int.fract (cf / 8) =
      8 * ((⌊cf / 8⌋ - (rtrunc (cf / 8) + rtrunc ((jsMod cf 8 + 8) / 8) - 1) : ℤ) : ℝ) := by
    rw [hL, hR]
    push_cast
    ring
  have hklt : ((⌊cf / 8⌋ - (rtrunc (cf / 8) + rtrunc ((jsMod cf 8 + 8) / 8) - 1) : ℤ) : ℝ) < 1 := by
    nlinarith [hdiff]
  have hkgt : (-1 : ℝ) < ((⌊cf / 8⌋ - (rtrunc (cf / 8) + rtrunc ((jsMod cf 8 + 8) / 8) - 1) : ℤ) : ℝ) := by
    nlinarith [hdiff]
  have hk : (⌊cf / 8⌋ - (rtrunc (cf / 8) + rtrunc ((jsMod cf 8 + 8) / 8) - 1) : ℤ) = 0 := by
    have h1 : (⌊cf / 8⌋ - (rtrunc (cf / 8) + rtrunc ((jsMod cf 8 + 8) / 8) - 1) : ℤ) < 1 := by
      exact_mod_cast hklt
    have h2 : (-1 : ℤ) < ⌊cf / 8⌋ - (rtrunc (cf / 8) + rtrunc ((jsMod cf 8 + 8) / 8) - 1) := by
      exact_mod_cast hkgt
    omega
  have := hdiff
  rw [hk] at this
  push_cast at this
  linarith

/-- The in-memory grid held by the cache after a successful fetch:
the two coordinate axes plus the mapping from channel name to a 2D
channel array (a channel may be absent). -/
structure GridData where
  lats : List ℝ
  lons : List ℝ
  chans : String → Option (List (List ℝ))

/-- The safe lookup helper `getValue(gridName)` of `getData`
(environmental-data-cache.js lines 143–149) at resolved indices
`(i, j)`: the cell value when the channel, its row and the cell all
exist, and the default `-9999` otherwise. -/
noncomputable def gridLookup (d : GridData) (name : String) (i j : ℕ) : ℝ :=
  match d.chans name with
  | none => -9999
  | some grid =>
    match grid.get? i with
    | none => -9999
    | some row =>
      match row.get? j with
      | none => -9999
      | some v => v

/-- The JS object returned by `getData`.  Fields of type `Option ℝ`:
`none` means the key is absent or null (reading it yields a non-number).
The union of the keys of the two return sites is used; each return site
leaves the other site's extra keys at `none`. -/
structure MeasurementRecord where
  depth : Option ℝ
  wind_speed_mps : Option ℝ
  wind_cardinal : Option ℝ
  wind_direction_deg : Option ℝ
  current_speed_mps : Option ℝ
  current_cardinal : Option ℝ
  current_direction_deg : Option ℝ
  waves_height_m : Option ℝ
  weekly_precip_mean : Option ℝ
  ice_conc : Option ℝ

/-- `getData(lat, lon)` (environmental-data-cache.js lines 131–218).
The first argument is `this.data`: `none` when the cache was never
successfully initialized.  The debug counter and logging are omitted
(they do not affect the returned object). -/
noncomputable def getData (data : Option GridData) (lat lon : ℝ) : MeasurementRecord :=
  match data with
  | none =>
      { depth := none
        wind_speed_mps := some 0
        wind_cardinal := some 0
        wind_direction_deg := none
        current_speed_mps := some 0
        current_cardinal := some 0
        current_direction_deg := none
        waves_height_m := some 0
        weekly_precip_mean := some 0
        ice_conc := some 0 }
  | some d =>
      let lat_idx := findClosestIndex d.lats lat
      let lon_idx := findClosestIndex d.lons lon
      let speed_asc := gridLookup d "wind_speed_mps_asc" lat_idx lon_idx
      let card_asc := gridLookup d "wind_cardinal_asc" lat_idx lon_idx
      let speed_dsc := gridLookup d "wind_speed_mps_dsc" lat_idx lon_idx
      let card_dsc := gridLookup d "wind_cardinal_dsc" lat_idx lon_idx
      let w := windReconcile speed_asc card_asc speed_dsc card_dsc
      let depth := gridLookup d "depth" lat_idx lon_idx
      let current_speed_mps := gridLookup d "current_speed_mps" lat_idx lon_idx
      let current_cardinal := ((round (gridLookup d "current_cardinal" lat_idx lon_idx) : ℤ) : ℝ)
      let waves_height_m := gridLookup d "waves_height" lat_idx lon_idx
      let weekly_precip_mean := gridLookup d "precipitation" lat_idx lon_idx
      let ice_conc := gridLookup d "ice_conc" lat_idx lon_idx
      { depth := if depth > -9999 then some depth else none
        wind_speed_mps := some (if w.1 > -9999 then w.1 else 0)
        wind_cardinal := none
        wind_direction_deg := some ((if w.2 > -9999 then w.2 else 0) * 45)
        current_speed_mps := some (if current_speed_mps > -9999 then current_speed_mps else 0)
        current_cardinal := none
        current_direction_deg := some ((if current_cardinal > -9999 then current_cardinal else 0) * 45)
        waves_height_m := some (if waves_height_m > -9999 then waves_height_m else 0)
        weekly_precip_mean := some (if weekly_precip_mean > -9999 then weekly_precip_mean else 0)
        ice_conc := some (if ice_conc > -9999 then ice_conc else 0) }

/-- The wind reconciliation as worded by the claim, with its original
guard: reconciled wind is `0 / 0` when either speed equals the sentinel
`-9999` or both speeds are exactly zero, and otherwise the component-wise
vector average, with the cardinal `((90 - atan2_degrees) / 45) mod 8`
normalized into `[0, 8)` and rounded to the nearest integer. -/
noncomputable def windSpecOrig (sa ca sd cd : ℝ) : ℝ × ℝ :=
  if sa = -9999 ∨ sd = -9999 ∨ (sa = 0 ∧ sd = 0) then (0, 0)
  else
    let xa := sa * Real.cos ((90 - ca * 45) * (π / 180))
    let ya := sa * Real.sin ((90 - ca * 45) * (π / 180))
    let xd := sd * Real.cos ((90 - cd * 45) * (π / 180))
    let yd := sd * Real.sin ((90 - cd * 45) * (π / 180))
    let xv := (xa + xd) / 2
    let yv := (ya + yd) / 2
    let deg := atan2 yv xv * (180 / π)
    (Real.sqrt (xv ^ 2 + yv ^ 2), ((round (8 * Int.fract (((90 - deg) / 45) / 8)) : ℤ) : ℝ))

/-- The wind reconciliation as worded by the claim with the guard
amended to match the code: reconciled wind is `0 / 0` when either speed
is at most the sentinel `-9999` or neither speed is strictly positive;
otherwise the component-wise vector average as in the claim. -/
noncomputable def windSpecFixed (sa ca sd cd : ℝ) : ℝ × ℝ :=
  if sa ≤ -9999 ∨ sd ≤ -9999 ∨ (sa ≤ 0 ∧ sd ≤ 0) then (0, 0)
  else
    let xa := sa * Real.cos ((90 - ca * 45) * (π / 180))
    let ya := sa * Real.sin ((90 - ca * 45) * (π / 180))
    let xd := sd * Real.cos ((90 - cd * 45) * (π / 180))
    let yd := sd * Real.sin ((90 - cd * 45) * (π / 180))
    let xv := (xa + xd) / 2
    let yv := (ya + yd) / 2
    let deg := atan2 yv xv * (180 / π)
    (Real.sqrt (xv ^ 2 + yv ^ 2), ((round (8 * Int.fract (((90 - deg) / 45) / 8)) : ℤ) : ℝ))

lemma windReconcile_eq_specFixed (sa ca sd cd : ℝ) :
    windReconcile sa ca sd cd = windSpecFixed sa ca sd cd := by
  have hiff : (sa ≤ -9999 ∨ sd ≤ -9999 ∨ (sa ≤ 0 ∧ sd ≤ 0)) ↔
      ¬(sa > -9999 ∧ sd > -9999 ∧ (sa > 0 ∨ sd > 0)) := by
    simp only [not_and_or, not_or, not_lt]
  simp only [windReconcile, windSpecFixed]
  by_cases h : sa > -9999 ∧ sd > -9999 ∧ (sa > 0 ∨ sd > 0)
  · rw [if_pos h, if_neg (fun hb => (hiff.mp hb) h)]
    refine Prod.ext rfl ?_
    show ((round (jsMod (jsMod _ 8 + 8) 8) : ℤ) : ℝ) = _
    rw [normCard_eq_mod]
  · rw [if_neg h, if_pos (hiff.mpr h)]

/-- The parsed JSON body of an upstream response.  `error` records
whether the body carries a truthy `error` field; `lats`/`lons` are
`none` when the corresponding key is absent. -/
structure RawData where
  error : Bool
  lats : Option (List ℝ)
  lons : Option (List ℝ)
  chans : String → Option (List (List ℝ))

/-- Outcome of the transport step of `initialize()`: the fetch (or the
JSON parse) throws, or a response arrives with a success flag
(`response.ok`) and a parsed body. -/
inductive FetchOutcome where
  | err : FetchOutcome
  | ok : Bool → RawData → FetchOutcome

/-- `initialize()` (environmental-data-cache.js lines 84–121) as a
function of the transport outcome, returning the final value of
`this.data` and the returned boolean.  A non-success status throws and
is caught (`data` stays null); a truthy `error` field, an absent `lats`
key or an empty `lats` array throw at the validity check; after that
check the success log dereferences `this.data.lons.length`, so an
absent `lons` key throws inside the `try` as well — all caught by the
handler that nulls `this.data` and returns false. -/
def initGrid : FetchOutcome → Option GridData × Bool
  | .err => (none, false)
  | .ok st r =>
    if st = false then (none, false)
    else
      match r.lats with
      | none => (none, false)
      | some ls =>
        if r.error = true ∨ ls.length = 0 then (none, false)
        else
          match r.lons with
          | none => (none, false)
          | some lo => (some ⟨ls, lo, r.chans⟩, true)

/-- The failure condition on transport outcomes, as listed by the claim
and amended with the absent-`lons` case. -/
def initFailCond : FetchOutcome → Prop
  | .err => True
  | .ok st r => st = false ∨ r.error = true ∨ r.lats = none ∨ r.lats = some [] ∨ r.lons = none

/-- The bounding box held in `this.bounds`. -/
structure Bounds where
  min_lat : ℝ
  max_lat : ℝ
  min_lon : ℝ
  max_lon : ℝ

/-- The bounding-box computation of the constructor
(environmental-data-cache.js lines 62–77): padding of 10 degrees around
the two endpoints, then `min_lat` is clamped from below by -90 and
`max_lat` from above by 90. -/
noncomputable def mkBounds (startLat startLng endLat endLng : ℝ) : Bounds :=
  let PADDING : ℝ := 10
  let b : Bounds :=
    { min_lat := min startLat endLat - PADDING
      max_lat := max startLat endLat + PADDING
      min_lon := min startLng endLng - PADDING
      max_lon := max startLng endLng + PADDING }
  { b with min_lat := max (-90) b.min_lat, max_lat := min 90 b.max_lat }

/-- The JS object returned by `getEnvDataAtPoint` of boat.js. -/
structure EnvPointRecord where
  wind_direction_deg : Option ℝ
  wind_speed_mps : Option ℝ
  current_direction_deg : Option ℝ
  current_speed_mps : Option ℝ

/-- `getEnvDataAtPoint(lat, lon)` of boat.js (lines 213–241) applied to
a non-null cached grid object: nearest indices via the same binary
search, then optional-chained reads
`this.envDataCache[gridName]?.[lat_idx]?.[lon_idx]` of four channel
names. -/
noncomputable def getEnvDataAtPoint (g : GridData) (lat lon : ℝ) : EnvPointRecord :=
  let lat_idx := findClosestIndex g.lats lat
  let lon_idx := findClosestIndex g.lons lon
  let getValue := fun name => ((g.chans name).bind (fun grid => grid.get? lat_idx)).bind
    (fun row => row.get? lon_idx)
  { wind_direction_deg := getValue "wind_direction_deg"
    wind_speed_mps := getValue "wind_speed_mps"
    current_direction_deg := getValue "current_direction_deg"
    current_speed_mps := getValue "current_speed_mps" }

/-- The ten channel keys of an ingested grid, besides `lats`/`lons`. -/
def gridChannelNames : List String :=
  ["depth", "wind_speed_mps_asc", "wind_cardinal_asc", "wind_speed_mps_dsc",
   "wind_cardinal_dsc", "current_speed_mps", "current_cardinal", "waves_height",
   "precipitation", "ice_conc"]

/-- A 1x1 grid whose only channel is `current_cardinal` with raw value 9. -/
noncomputable def g405 : GridData where
  lats := [0]
  lons := [0]
  chans := fun name => if name = "current_cardinal" then some [[9]] else none

/-- A 1x1 grid with both wind speeds 1 and a descending cardinal 1, but
no `wind_cardinal_asc` channel. -/
noncomputable def gCard : GridData where
  lats := [0]
  lons := [0]
  chans := fun name =>
    if name = "wind_speed_mps_asc" then some [[1]]
    else if name = "wind_speed_mps_dsc" then some [[1]]
    else if name = "wind_cardinal_dsc" then some [[1]]
    else none

/-- A 1x1 grid with no channels at all. -/
noncomputable def gEmpty : GridData where
  lats := [0]
  lons := [0]
  chans := fun _ => none

lemma fci_single : findClosestIndex [0] (0:ℝ) = 0 := by
  rw [findClosestIndex]
  norm_num
  rw [fciGo]
  norm_num [nth]

lemma windReconcile_guard_false {a b c d : ℝ}
    (h : ¬(a > -9999 ∧ c > -9999 ∧ (a > 0 ∨ c > 0))) :
    windReconcile a b c d = (0, 0) := by
  simp only [windReconcile, if_neg h]

lemma round_neg_sentinel : round (-9999 : ℝ) = -9999 := by
  rw [show (-9999:ℝ) = ((-9999:ℤ):ℝ) by norm_num, round_intCast]

lemma getData_g405_eval :
    (getData (some g405) 0 0).current_direction_deg = some 405 ∧
    (getData (some g405) 0 0).wind_direction_deg = some 0 ∧
    (getData (some g405) 0 0).wind_speed_mps = some 0 := by
  have hlats : g405.lats = [0] := rfl
  have hlons : g405.lons = [0] := rfl
  have hcc : gridLookup g405 "current_cardinal" 0 0 = 9 := by
    simp [gridLookup, g405]
  have hsa : gridLookup g405 "wind_speed_mps_asc" 0 0 = -9999 := by
    simp [gridLookup, g405]
  have hca : gridLookup g405 "wind_cardinal_asc" 0 0 = -9999 := by
    simp [gridLookup, g405]
  have hsd : gridLookup g405 "wind_speed_mps_dsc" 0 0 = -9999 := by
    simp [gridLookup, g405]
  have hcd : gridLookup g405 "wind_cardinal_dsc" 0 0 = -9999 := by
    simp [gridLookup, g405]
  simp only [getData, hlats, hlons, fci_single, hcc, hsa, hca, hsd, hcd]
  rw [windReconcile_guard_false (by norm_num)]
  norm_num

lemma windReconcile_gCard : windReconcile 1 (-9999) 1 1 = (1, 1) := by
  simp only [windReconcile]
  rw [if_pos ⟨by norm_num, by norm_num, Or.inl (by norm_num)⟩]
  have hasc : (90 - (-9999:ℝ) * 45) * (π / 180) =
      (90 - 1 * 45) * (π / 180) + (1250:ℤ) * (2 * π) := by
    push_cast
    ring
  rw [hasc, Real.cos_add_int_mul_two_pi, Real.sin_add_int_mul_two_pi]
  have hA : ((90:ℝ) - 1 * 45) * (π / 180) = π / 4 := by ring
  rw [hA]
  have hx : ((1:ℝ) * Real.cos (π / 4) + 1 * Real.cos (π / 4)) / 2 = Real.cos (π / 4) := by
    ring
  have hy : ((1:ℝ) * Real.sin (π / 4) + 1 * Real.sin (π / 4)) / 2 = Real.sin (π / 4) := by
    ring
  rw [hx, hy]
  refine Prod.ext ?_ ?_
  · show Real.sqrt _ = 1
    have hsq : Real.cos (π / 4) ^ 2 + Real.sin (π / 4) ^ 2 = 1 := by
      have := Real.sin_sq_add_cos_sq (π / 4)
      linarith
    rw [hsq, Real.sqrt_one]
  · show ((round (jsMod (jsMod ((90 - atan2 _ _ * (180 / π)) / 45) 8 + 8) 8) : ℤ) : ℝ) = 1
    have h1 : -π < π / 4 := by linarith [Real.pi_pos]
    have h2 : π / 4 ≤ π := by linarith [Real.pi_pos]
    rw [atan2_cos_sin h1 h2]
    have hdeg : π / 4 * (180 / π) = 45 := by
      field_simp
      ring
    rw [hdeg]
    have hcf : ((90:ℝ) - 45) / 45 = 1 := by norm_num
    rw [hcf, normCard_of_nonneg (by norm_num) (by norm_num)]
    norm_num

lemma getData_gCard_eval :
    (getData (some gCard) 0 0).wind_speed_mps = some 1 ∧
    (getData (some gCard) 0 0).wind_direction_deg = some 45 := by
  have hlats : gCard.lats = [0] := rfl
  have hlons : gCard.lons = [0] := rfl
  have hsa : gridLookup gCard "wind_speed_mps_asc" 0 0 = 1 := by
    simp [gridLookup, gCard]
  have hca : gridLookup gCard "wind_cardinal_asc" 0 0 = -9999 := by
    simp [gridLookup, gCard]
  have hsd : gridLookup gCard "wind_speed_mps_dsc" 0 0 = 1 := by
    simp [gridLookup, gCard]
  have hcd : gridLookup gCard "wind_cardinal_dsc" 0 0 = 1 := by
    simp [gridLookup, gCard]
  simp only [getData, hlats, hlons, fci_single, hsa, hca, hsd, hcd]
  rw [windReconcile_gCard]
  norm_num

lemma gCard_card_asc_absent : gCard.chans "wind_cardinal_asc" = none := by
  simp [gCard]

lemma windSpecOrig_neg_speeds : windSpecOrig (-1) 0 (-1) 0 = (1, 4) := by
  simp only [windSpecOrig]
  rw [if_neg (by norm_num)]
  have hA : ((90:ℝ) - 0 * 45) * (π / 180) = π / 2 := by ring
  rw [hA, Real.cos_pi_div_two, Real.sin_pi_div_two]
  have hx : ((-1:ℝ) * 0 + (-1) * 0) / 2 = 0 := by norm_num
  have hy : ((-1:ℝ) * 1 + (-1) * 1) / 2 = -1 := by norm_num
  rw [hx, hy]
  refine Prod.ext ?_ ?_
  · show Real.sqrt _ = 1
    rw [show (0:ℝ) ^ 2 + (-1) ^ 2 = 1 by norm_num, Real.sqrt_one]
  · show ((round (8 * Int.fract (((90 - atan2 (-1) 0 * (180 / π)) / 45) / 8)) : ℤ) : ℝ) = 4
    have hat : atan2 (-1) 0 = -(π / 2) := by
      rw [atan2]
      have hneg : ((⟨0, -1⟩ : ℂ)) = -Complex.I := by
        apply Complex.ext <;> simp
      rw [hneg, Complex.arg_neg_I]
    rw [hat]
    have hdeg : -(π / 2) * (180 / π) = -90 := by
      field_simp
      ring
    rw [hdeg]
    have hcf : (((90:ℝ) - -90) / 45) / 8 = 1 / 2 := by norm_num
    rw [hcf, Int.fract_eq_self.mpr ⟨by norm_num, by norm_num⟩]
    norm_num

/-- A 1x1 grid with both wind pass speeds -1 and both cardinals 0. -/
noncomputable def gNeg : GridData where
  lats := [0]
  lons := [0]
  chans := fun name =>
    if name = "wind_speed_mps_asc" then some [[-1]]
    else if name = "wind_speed_mps_dsc" then some [[-1]]
    else if name = "wind_cardinal_asc" then some [[0]]
    else if name = "wind_cardinal_dsc" then some [[0]]
    else none

lemma getData_gNeg_eval :
    (getData (some gNeg) 0 0).wind_speed_mps = some 0 ∧
    (getData (some gNeg) 0 0).wind_direction_deg = some 0 := by
  have hlats : gNeg.lats = [0] := rfl
  have hlons : gNeg.lons = [0] := rfl
  have hsa : gridLookup gNeg "wind_speed_mps_asc" 0 0 = -1 := by
    simp [gridLookup, gNeg]
  have hca : gridLookup gNeg "wind_cardinal_asc" 0 0 = 0 := by
    simp [gridLookup, gNeg]
  have hsd : gridLookup gNeg "wind_speed_mps_dsc" 0 0 = -1 := by
    simp [gridLookup, gNeg]
  have hcd : gridLookup gNeg "wind_cardinal_dsc" 0 0 = 0 := by
    simp [gridLookup, gNeg]
  simp only [getData, hlats, hlons, fci_single, hsa, hca, hsd, hcd]
  rw [windReconcile_guard_false (by norm_num)]
  norm_num

/-- Claim C1, counterexample: on a grid whose wind pass speeds are both
-1 (neither the sentinel -9999 nor zero, so the claim prescribes the
vector average, of speed 1 and cardinal 4), `getData` returns wind speed
0 and direction 0: the code's guard additionally requires a strictly
positive speed. -/
theorem wind_guard_counterexample :
    gridLookup gNeg "wind_speed_mps_asc" 0 0 = -1 ∧
    gridLookup gNeg "wind_speed_mps_dsc" 0 0 = -1 ∧
    windSpecOrig (-1) 0 (-1) 0 = (1, 4) ∧
    (getData (some gNeg) 0 0).wind_speed_mps = some 0 ∧
    (1 : ℝ) ≠ 0 := by
  refine ⟨by simp [gridLookup, gNeg], by simp [gridLookup, gNeg],
    windSpecOrig_neg_speeds, getData_gNeg_eval.1, by norm_num⟩

/-- Claim C1 (amended): the guard is `speed > -9999` on both passes and
at least one strictly positive speed (so a sentinel-or-below speed, or a
pair of non-positive speeds, reconciles to 0/0); in every other case the
wind fields of the returned record are exactly the claim's component-wise
vector average: speed the magnitude of the averaged vector, direction
45 times the cardinal `((90 - atan2_degrees)/45) mod 8` normalized into
`[0,8)` and rounded to the nearest integer. -/
theorem wind_reconciliation (d : GridData) (lat lon : ℝ) :
    (getData (some d) lat lon).wind_speed_mps =
      some ((windSpecFixed
        (gridLookup d "wind_speed_mps_asc" (findClosestIndex d.lats lat) (findClosestIndex d.lons lon))
        (gridLookup d "wind_cardinal_asc" (findClosestIndex d.lats lat) (findClosestIndex d.lons lon))
        (gridLookup d "wind_speed_mps_dsc" (findClosestIndex d.lats lat) (findClosestIndex d.lons lon))
        (gridLookup d "wind_cardinal_dsc" (findClosestIndex d.lats lat) (findClosestIndex d.lons lon))).1) ∧
    (getData (some d) lat lon).wind_direction_deg =
      some ((windSpecFixed
        (gridLookup d "wind_speed_mps_asc" (findClosestIndex d.lats lat) (findClosestIndex d.lons lon))
        (gridLookup d "wind_cardinal_asc" (findClosestIndex d.lats lat) (findClosestIndex d.lons lon))
        (gridLookup d "wind_speed_mps_dsc" (findClosestIndex d.lats lat) (findClosestIndex d.lons lon))
        (gridLookup d "wind_cardinal_dsc" (findClosestIndex d.lats lat) (findClosestIndex d.lons lon))).2 * 45) := by
  simp only [getData]
  rw [← windReconcile_eq_specFixed]
  constructor
  · have h := windReconcile_speed_nonneg
      (gridLookup d "wind_speed_mps_asc" (findClosestIndex d.lats lat) (findClosestIndex d.lons lon))
      (gridLookup d "wind_cardinal_asc" (findClosestIndex d.lats lat) (findClosestIndex d.lons lon))
      (gridLookup d "wind_speed_mps_dsc" (findClosestIndex d.lats lat) (findClosestIndex d.lons lon))
      (gridLookup d "wind_cardinal_dsc" (findClosestIndex d.lats lat) (findClosestIndex d.lons lon))
    rw [if_pos (by linarith)]
  · have h := (windReconcile_card_bounds
      (gridLookup d "wind_speed_mps_asc" (findClosestIndex d.lats lat) (findClosestIndex d.lons lon))
      (gridLookup d "wind_cardinal_asc" (findClosestIndex d.lats lat) (findClosestIndex d.lons lon))
      (gridLookup d "wind_speed_mps_dsc" (findClosestIndex d.lats lat) (findClosestIndex d.lons lon))
      (gridLookup d "wind_cardinal_dsc" (findClosestIndex d.lats lat) (findClosestIndex d.lons lon))).1
    rw [if_pos (by linarith)]

lemma fci_two_tie : findClosestIndex ([0, 2] : List ℝ) 1 = 1 := by
  rw [findClosestIndex]
  norm_num
  rw [fciGo]; norm_num [nth]
  rw [fciGo]; norm_num [nth]
  rw [fciGo]; norm_num [nth, fciPost]

/-- Claim C2, counterexample: on the sorted axis `[0, 2]` the query 1 is
equidistant from both elements; the claim says ties resolve toward the
lower index 0, but `findClosestIndex` returns 1. -/
theorem findClosestIndex_tie_counterexample :
    findClosestIndex ([0, 2] : List ℝ) 1 = 1 ∧
    |nth [0, 2] 0 - 1| = |nth [0, 2] 1 - 1| ∧
    (1 : ℕ) ≠ 0 := by
  refine ⟨fci_two_tie, ?_, by norm_num⟩
  norm_num [nth]

/-- Claim C2 (amended): for every nonempty strictly ascending axis and
every query value, `findClosestIndex` returns an in-range index that
minimizes `|axis[i] - value|`, with ties between two equidistant
neighbours resolved toward the HIGHER index; a query below the first
element yields 0 and a query above the last element yields `length - 1`
(including axes of length 1). -/
theorem findClosestIndex_minimizes (arr : List ℝ) (target : ℝ)
    (hne : arr.length ≠ 0) (hs : StrictAsc arr) :
    findClosestIndex arr target < arr.length ∧
    (∀ j, j < arr.length →
      |nth arr (findClosestIndex arr target) - target| ≤ |nth arr j - target|) ∧
    (∀ j, j < arr.length →
      |nth arr j - target| = |nth arr (findClosestIndex arr target) - target| →
      j ≤ findClosestIndex arr target) ∧
    (target < nth arr 0 → findClosestIndex arr target = 0) ∧
    (nth arr (arr.length - 1) < target → findClosestIndex arr target = arr.length - 1) := by
  have hmain :
      findClosestIndex arr target < arr.length ∧
      (∀ j, j < arr.length →
        |nth arr (findClosestIndex arr target) - target| ≤ |nth arr j - target|) ∧
      (∀ j, j < arr.length →
        |nth arr j - target| = |nth arr (findClosestIndex arr target) - target| →
        j ≤ findClosestIndex arr target) := by
    rcases fciGo_spec arr target hs arr.length 0 arr.length (by omega) (by omega) (le_refl _)
        (by omega) (by omega) with ⟨m, hm, hmlen, hmt⟩ | ⟨L, hL, hLle, hlo, hup⟩
    · rw [findClosestIndex, hm]
      refine ⟨hmlen, ?_, ?_⟩
      · intro j hj
        rw [hmt]
        simp
      · intro j hj htie
        rw [hmt] at htie
        simp only [sub_self, abs_zero, abs_eq_zero, sub_eq_zero] at htie
        exact (strictAsc_inj arr hs hj hmlen (htie.trans hmt.symm)).le
    · rw [findClosestIndex, hL]
      exact fciPost_spec arr target hs hne L hLle hlo hup
  refine ⟨hmain.1, hmain.2.1, hmain.2.2, ?_, ?_⟩
  · intro hbelow
    by_contra hne0
    have hrpos : 0 < findClosestIndex arr target := Nat.pos_of_ne_zero hne0
    have h0r : nth arr 0 < nth arr (findClosestIndex arr target) :=
      hs 0 _ hrpos hmain.1
    have habs0 : |nth arr 0 - target| = nth arr 0 - target := abs_of_pos (by linarith)
    have habsr : |nth arr (findClosestIndex arr target) - target| =
        nth arr (findClosestIndex arr target) - target := abs_of_pos (by linarith)
    have := hmain.2.1 0 (Nat.pos_of_ne_zero hne)
    rw [habs0, habsr] at this
    linarith
  · intro habove
    by_contra hnelast
    have hrlt : findClosestIndex arr target < arr.length - 1 := by
      have := hmain.1; omega
    have hmono : nth arr (findClosestIndex arr target) < nth arr (arr.length - 1) :=
      hs _ _ hrlt (by omega)
    have habsl : |nth arr (arr.length - 1) - target| = target - nth arr (arr.length - 1) := by
      rw [abs_of_neg (by linarith)]; ring
    have habsr : |nth arr (findClosestIndex arr target) - target| =
        target - nth arr (findClosestIndex arr target) := by
      rw [abs_of_neg (by linarith)]; ring
    have := hmain.2.1 (arr.length - 1) (by omega)
    rw [habsl, habsr] at this
    linarith

lemma strictAsc_two : StrictAsc ([0, 2] : List ℝ) := by
  intro i j hij hj
  have hj2 : j < 2 := by simpa using hj
  interval_cases j
  · omega
  · interval_cases i
    norm_num [nth]

/-- Witness for the amended claim C2 at the axis `[0, 2]` and query 1. -/
theorem findClosestIndex_minimizes_witness :
    ([0, 2] : List ℝ).length ≠ 0 ∧
    (∀ j, j < ([0, 2] : List ℝ).length →
      |nth [0, 2] (findClosestIndex ([0, 2] : List ℝ) 1) - 1| ≤ |nth [0, 2] j - 1|) :=
  ⟨by norm_num, (findClosestIndex_minimizes [0, 2] 1 (by norm_num) strictAsc_two).2.1⟩

/-- Claim C3, counterexample: a success-status response with no error
field and a nonempty `lats` axis — none of the claim's failure
conditions — still fails when the `lons` key is absent, because the
success log dereferences `this.data.lons.length` inside the `try`. -/
theorem init_lons_counterexample :
    initGrid (FetchOutcome.ok true ⟨false, some [0], none, fun _ => none⟩) = (none, false) ∧
    (RawData.mk false (some [0]) none (fun _ => none)).error = false ∧
    (RawData.mk false (some [0]) none (fun _ => none)).lats = some [0] ∧
    ([0] : List ℝ) ≠ [] := by
  refine ⟨?_, rfl, rfl, by simp⟩
  simp [initGrid]

lemma initGrid_success (e : Bool) (lats0 lons0 : Option (List ℝ))
    (ch : String → Option (List (List ℝ))) (ls lo : List ℝ)
    (h1 : lats0 = some ls) (h2 : lons0 = some lo) (h3 : e = false) (h4 : ls ≠ []) :
    initGrid (FetchOutcome.ok true ⟨e, lats0, lons0, ch⟩) = (some ⟨ls, lo, ch⟩, true) := by
  subst h1
  subst h2
  subst h3
  have hlen : ls.length ≠ 0 := fun hz => h4 (List.length_eq_zero.mp hz)
  simp [initGrid, hlen]

/-- Claim C3 (amended): `initialize()` fails — and leaves the grid
uninitialized — exactly when the transport errors, the status is
non-success, the body carries a truthy error field, the `lats` axis is
absent or empty, OR the `lons` axis is absent; in every other case it
succeeds with the whole parsed grid resident. -/
theorem initGrid_spec (o : FetchOutcome) :
    ((initGrid o).2 = false ↔ initFailCond o) ∧
    ((initGrid o).2 = false → (initGrid o).1 = none) ∧
    (∀ e lats0 lons0 ch ls lo, o = FetchOutcome.ok true ⟨e, lats0, lons0, ch⟩ →
      lats0 = some ls → lons0 = some lo → e = false → ls ≠ [] →
      initGrid o = (some ⟨ls, lo, ch⟩, true)) := by
  refine ⟨?_, ?_, ?_⟩
  · rcases o with _ | ⟨st, ⟨e, lats?, lons?, ch⟩⟩
    · simp [initGrid, initFailCond]
    · cases st
      · simp [initGrid, initFailCond]
      · cases e
        · rcases lats? with _ | ls
          · simp [initGrid, initFailCond]
          · rcases lons? with _ | lo
            · by_cases hls : ls.length = 0
              · simp [initGrid, initFailCond, hls, List.length_eq_zero.mp hls]
              · have hne : ls ≠ [] := fun h => hls (by rw [h]; rfl)
                simp [initGrid, initFailCond, hls, hne]
            · by_cases hls : ls.length = 0
              · simp [initGrid, initFailCond, hls, List.length_eq_zero.mp hls]
              · have hne : ls ≠ [] := fun h => hls (by rw [h]; rfl)
                simp [initGrid, initFailCond, hls, hne]
        · rcases lats? with _ | ls <;> simp [initGrid, initFailCond]
  · rcases o with _ | ⟨st, ⟨e, lats?, lons?, ch⟩⟩
    · simp [initGrid]
    · cases st
      · simp [initGrid]
      · cases e
        · rcases lats? with _ | ls
          · simp [initGrid]
          · rcases lons? with _ | lo
            · by_cases hls : ls.length = 0 <;> simp [initGrid, hls]
            · by_cases hls : ls.length = 0 <;> simp [initGrid, hls]
        · rcases lats? with _ | ls <;> simp [initGrid]
  · intro e lats0 lons0 ch ls lo h h1 h2 h3 h4
    rw [h]
    exact initGrid_success e lats0 lons0 ch ls lo h1 h2 h3 h4

/-- Witness for the amended claim C3: a fully valid response succeeds
with the whole grid resident, and an errored transport fails. -/
theorem initGrid_spec_witness :
    initGrid (FetchOutcome.ok true ⟨false, some [0], some [0], fun _ => none⟩) =
      (some ⟨[0], [0], fun _ => none⟩, true) ∧
    (initGrid FetchOutcome.err).2 = false :=
  ⟨(initGrid_spec (FetchOutcome.ok true ⟨false, some [0], some [0], fun _ => none⟩)).2.2
      false (some [0]) (some [0]) (fun _ => none) [0] [0] rfl rfl rfl rfl (by simp),
   (initGrid_spec FetchOutcome.err).1.mpr trivial⟩

/-- Claim C4: on an uninitialized cache, `getData` returns the legacy
record `{depth: null, wind_speed_mps: 0, wind_cardinal: 0,
current_speed_mps: 0, current_cardinal: 0, waves_height_m: 0,
weekly_precip_mean: 0, ice_conc: 0}` — the keys `wind_direction_deg`
and `current_direction_deg` required by the MeasurementRecord contract
are absent (reading them yields undefined), not 0. -/
theorem getData_uninit_keys :
    (getData none 0 0).wind_direction_deg = none ∧
    (getData none 0 0).current_direction_deg = none ∧
    (getData none 0 0).wind_cardinal = some 0 ∧
    (getData none 0 0).current_cardinal = some 0 ∧
    (getData none 0 0).depth = none ∧
    (getData none 0 0).wind_speed_mps = some 0 ∧
    (getData none 0 0).current_speed_mps = some 0 ∧
    (getData none 0 0).waves_height_m = some 0 ∧
    (getData none 0 0).weekly_precip_mean = some 0 ∧
    (getData none 0 0).ice_conc = some 0 :=
  ⟨rfl, rfl, rfl, rfl, rfl, rfl, rfl, rfl, rfl, rfl⟩

/-- Claim C7: reconciling two identical passes of any positive speed and
any exact cardinal 0..7 returns exactly that speed and that cardinal. -/
theorem wind_roundtrip (s : ℝ) (hs : 0 < s) (c : ℕ) (hc : c ≤ 7) :
    windReconcile s (c : ℝ) s (c : ℝ) = (s, (c : ℝ)) := by
  interval_cases c
  · rw [windReconcile_equal_card hs (by norm_num) (by norm_num)]
    push_cast
    rw [normCard_of_nonneg (by norm_num) (by norm_num)]
    norm_num
  · rw [windReconcile_equal_card hs (by norm_num) (by norm_num)]
    push_cast
    rw [normCard_of_nonneg (by norm_num) (by norm_num)]
    norm_num
  · rw [windReconcile_equal_card hs (by norm_num) (by norm_num)]
    push_cast
    rw [normCard_of_nonneg (by norm_num) (by norm_num)]
    norm_num
  · rw [windReconcile_equal_card hs (by norm_num) (by norm_num)]
    push_cast
    rw [normCard_of_nonneg (by norm_num) (by norm_num)]
    norm_num
  · rw [windReconcile_equal_card hs (by norm_num) (by norm_num)]
    push_cast
    rw [normCard_of_nonneg (by norm_num) (by norm_num)]
    norm_num
  · rw [windReconcile_equal_card hs (by norm_num) (by norm_num)]
    push_cast
    rw [normCard_of_nonneg (by norm_num) (by norm_num)]
    norm_num
  · -- c = 6 : the angle is exactly -π ; atan2 returns π
    push_cast
    rw [windReconcile_equal s 6 hs]
    have hA : ((90:ℝ) - 6 * 45) * (π / 180) = -π := by ring
    rw [hA, Real.sin_neg, Real.sin_pi, Real.cos_neg, Real.cos_pi]
    have hatan : atan2 (-0) (-1) = π := by
      rw [show (-0:ℝ) = 0 by norm_num, atan2]
      have : ((⟨-1, 0⟩ : ℂ)) = ((-1 : ℝ) : ℂ) := by
        apply Complex.ext <;> simp
      rw [this]
      exact Complex.arg_ofReal_of_neg (by norm_num)
    rw [hatan]
    have hdeg : π * (180 / π) = 180 := by field_simp
    rw [hdeg]
    have hcf : ((90:ℝ) - 180) / 45 = -2 := by norm_num
    rw [hcf, normCard_of_neg (by norm_num) (by norm_num)]
    norm_num
  · -- c = 7 : the angle is -5π/4 ; atan2 returns 3π/4
    push_cast
    rw [windReconcile_equal s 7 hs]
    have hA : ((90:ℝ) - 7 * 45) * (π / 180) = 3 * π / 4 - 2 * π := by ring
    rw [hA, Real.sin_sub_two_pi, Real.cos_sub_two_pi]
    have h1 : -π < 3 * π / 4 := by linarith [Real.pi_pos]
    have h2 : 3 * π / 4 ≤ π := by linarith [Real.pi_pos]
    rw [atan2_cos_sin h1 h2]
    have hdeg : 3 * π / 4 * (180 / π) = 135 := by
      field_simp
      ring
    rw [hdeg]
    have hcf : ((90:ℝ) - 135) / 45 = -1 := by norm_num
    rw [hcf, normCard_of_neg (by norm_num) (by norm_num)]
    norm_num

/-- Witness for claim C7 at speed 1 and cardinal 3. -/
theorem wind_roundtrip_witness :
    (0:ℝ) < 1 ∧ ((3:ℕ) ≤ 7) ∧ windReconcile 1 ((3:ℕ) : ℝ) 1 ((3:ℕ) : ℝ) = (1, ((3:ℕ) : ℝ)) :=
  ⟨one_pos, by norm_num, wind_roundtrip 1 one_pos 3 (by norm_num)⟩

/-- The channel lookup of `getData` at the indices resolved for a query
point. -/
noncomputable def resolvedLookup (d : GridData) (lat lon : ℝ) (name : String) : ℝ :=
  gridLookup d name (findClosestIndex d.lats lat) (findClosestIndex d.lons lon)

/-- Claim C5, counterexample: on a grid whose `wind_cardinal_asc`
channel is absent but whose wind speeds are present (both 1, descending
cardinal 1), the claim prescribes the wind defaults 0/0, but `getData`
feeds the sentinel -9999 into the vector average as a cardinal
(-9999 cardinal is 45 degrees mod 360) and returns wind speed 1,
direction 45. -/
theorem wind_cardinal_missing_counterexample :
    gCard.chans "wind_cardinal_asc" = none ∧
    (getData (some gCard) 0 0).wind_speed_mps = some 1 ∧
    (getData (some gCard) 0 0).wind_direction_deg = some 45 ∧
    (1 : ℝ) ≠ 0 :=
  ⟨gCard_card_asc_absent, getData_gCard_eval.1, getData_gCard_eval.2, by norm_num⟩

lemma dir_bound_aux (a b c d : ℝ) :
    0 ≤ (if (windReconcile a b c d).2 > -9999 then (windReconcile a b c d).2 else 0) * 45 ∧
    (if (windReconcile a b c d).2 > -9999 then (windReconcile a b c d).2 else 0) * 45 ≤ 360 ∧
    ∃ k : ℤ, (if (windReconcile a b c d).2 > -9999 then (windReconcile a b c d).2 else 0) * 45 =
      (k : ℝ) * 45 := by
  obtain ⟨k, hk, h0, h8⟩ := windReconcile_card_exists a b c d
  have hcast0 : (0:ℝ) ≤ (k:ℝ) := by exact_mod_cast h0
  have hcast8 : (k:ℝ) ≤ 8 := by exact_mod_cast h8
  rw [hk, if_pos (by linarith)]
  refine ⟨by linarith, by linarith, ⟨k, rfl⟩⟩

/-- Claim C6 (amended): on an initialized grid the returned
`wind_direction_deg` is present and lies in `[0, 360]` — the value 360
(cardinal rounded up to 8) is not excluded, so `[0, 360)` cannot be
guaranteed — and `current_direction_deg` is present and is 45 times a
rounded raw cardinal, with no range guarantee at all (it is out of
`[0, 360)` whenever the raw cell is, e.g., 9); on an uninitialized
cache neither key is present. -/
theorem direction_ranges (d : GridData) (lat lon : ℝ) :
    (∀ w, (getData (some d) lat lon).wind_direction_deg = some w →
      0 ≤ w ∧ w ≤ 360 ∧ ∃ k : ℤ, w = (k : ℝ) * 45) ∧
    (∀ c, (getData (some d) lat lon).current_direction_deg = some c →
      ∃ k : ℤ, c = (k : ℝ) * 45) ∧
    (getData none lat lon).wind_direction_deg = none ∧
    (getData none lat lon).current_direction_deg = none := by
  refine ⟨?_, ?_, rfl, rfl⟩
  · intro w hw
    simp only [getData, Option.some.injEq] at hw
    rw [← hw]
    exact dir_bound_aux _ _ _ _
  · intro c hc
    simp only [getData, Option.some.injEq] at hc
    rw [← hc]
    by_cases h : ((round (gridLookup d "current_cardinal" (findClosestIndex d.lats lat)
        (findClosestIndex d.lons lon)) : ℤ) : ℝ) > -9999
    · rw [if_pos h]
      exact ⟨round (gridLookup d "current_cardinal" (findClosestIndex d.lats lat)
        (findClosestIndex d.lons lon)), rfl⟩
    · rw [if_neg h]
      exact ⟨0, by norm_num⟩

/-- Claim C6, counterexample: a grid whose raw `current_cardinal` cell
is 9 makes `resolve` return `current_direction_deg = 405`, outside
`[0, 360)`. -/
theorem current_direction_counterexample :
    (getData (some g405) 0 0).current_direction_deg = some 405 ∧ ¬((405:ℝ) < 360) :=
  ⟨getData_g405_eval.1, by norm_num⟩

/-- Witness for the amended claim C6 at the concrete grid `g405`. -/
theorem direction_ranges_witness :
    (getData (some g405) 0 0).wind_direction_deg = some 0 ∧
    (0 ≤ (0:ℝ) ∧ (0:ℝ) ≤ 360 ∧ ∃ k : ℤ, (0:ℝ) = (k : ℝ) * 45) ∧
    (∃ k : ℤ, (405:ℝ) = (k : ℝ) * 45) :=
  ⟨getData_g405_eval.2.1,
   (direction_ranges g405 0 0).1 0 getData_g405_eval.2.1,
   (direction_ranges g405 0 0).2.1 405 getData_g405_eval.1⟩

lemma round_mul45_ne_sentinel (x : ℝ) :
    (if ((round x : ℤ) : ℝ) > -9999 then ((round x : ℤ) : ℝ) else 0) * 45 ≠ -9999 := by
  split_ifs with h
  · intro he
    have : ((round x : ℤ) : ℝ) * 45 = ((round x * 45 : ℤ) : ℝ) := by push_cast; ring
    rw [this] at he
    have hz : (round x * 45 : ℤ) = -9999 := by exact_mod_cast he
    omega
  · norm_num

/-- Claim C5 (amended): the sparse-cell lookup returns the cell value
exactly when the channel, its row and its cell exist, and the sentinel
-9999 otherwise; a sentinel lookup on the single-source channels
(depth, current speed/cardinal, waves, precipitation, ice) defaults
exactly the field derived from that channel, each such output field
being a function of only its own channel's lookup; a sentinel lookup on
either wind SPEED channel defaults both wind fields to 0 — but a
sentinel `wind_cardinal_asc`/`wind_cardinal_dsc` lookup is NOT
defaulted (the sentinel enters the vector average as a cardinal, see
the counterexample); and the sentinel never appears as a field value of
the returned record. -/
theorem sparse_lookup_defaults (d : GridData) (lat lon : ℝ) :
    (∀ name i j, gridLookup d name i j =
      (((d.chans name).bind (fun grid => grid.get? i)).bind (fun row => row.get? j)).getD
        (-9999)) ∧
    ((getData (some d) lat lon).depth =
      if resolvedLookup d lat lon "depth" > -9999 then some (resolvedLookup d lat lon "depth")
      else none) ∧
    ((getData (some d) lat lon).current_speed_mps =
      some (if resolvedLookup d lat lon "current_speed_mps" > -9999 then
        resolvedLookup d lat lon "current_speed_mps" else 0)) ∧
    ((getData (some d) lat lon).current_direction_deg =
      some ((if ((round (resolvedLookup d lat lon "current_cardinal") : ℤ) : ℝ) > -9999 then
        ((round (resolvedLookup d lat lon "current_cardinal") : ℤ) : ℝ) else 0) * 45)) ∧
    ((getData (some d) lat lon).waves_height_m =
      some (if resolvedLookup d lat lon "waves_height" > -9999 then
        resolvedLookup d lat lon "waves_height" else 0)) ∧
    ((getData (some d) lat lon).weekly_precip_mean =
      some (if resolvedLookup d lat lon "precipitation" > -9999 then
        resolvedLookup d lat lon "precipitation" else 0)) ∧
    ((getData (some d) lat lon).ice_conc =
      some (if resolvedLookup d lat lon "ice_conc" > -9999 then
        resolvedLookup d lat lon "ice_conc" else 0)) ∧
    (resolvedLookup d lat lon "depth" = -9999 → (getData (some d) lat lon).depth = none) ∧
    (resolvedLookup d lat lon "current_speed_mps" = -9999 →
      (getData (some d) lat lon).current_speed_mps = some 0) ∧
    (resolvedLookup d lat lon "current_cardinal" = -9999 →
      (getData (some d) lat lon).current_direction_deg = some 0) ∧
    (resolvedLookup d lat lon "waves_height" = -9999 →
      (getData (some d) lat lon).waves_height_m = some 0) ∧
    (resolvedLookup d lat lon "precipitation" = -9999 →
      (getData (some d) lat lon).weekly_precip_mean = some 0) ∧
    (resolvedLookup d lat lon "ice_conc" = -9999 →
      (getData (some d) lat lon).ice_conc = some 0) ∧
    (resolvedLookup d lat lon "wind_speed_mps_asc" = -9999 →
      (getData (some d) lat lon).wind_speed_mps = some 0 ∧
      (getData (some d) lat lon).wind_direction_deg = some 0) ∧
    (resolvedLookup d lat lon "wind_speed_mps_dsc" = -9999 →
      (getData (some d) lat lon).wind_speed_mps = some 0 ∧
      (getData (some d) lat lon).wind_direction_deg = some 0) ∧
    ((getData (some d) lat lon).depth ≠ some (-9999) ∧
      (getData (some d) lat lon).wind_speed_mps ≠ some (-9999) ∧
      (getData (some d) lat lon).wind_direction_deg ≠ some (-9999) ∧
      (getData (some d) lat lon).current_speed_mps ≠ some (-9999) ∧
      (getData (some d) lat lon).current_direction_deg ≠ some (-9999) ∧
      (getData (some d) lat lon).waves_height_m ≠ some (-9999) ∧
      (getData (some d) lat lon).weekly_precip_mean ≠ some (-9999) ∧
      (getData (some d) lat lon).ice_conc ≠ some (-9999)) := by
  refine ⟨?_, ?_, ?_, ?_, ?_, ?_, ?_, ?_, ?_, ?_, ?_, ?_, ?_, ?_, ?_, ?_⟩
  · intro name i j
    rcases h1 : d.chans name with _ | grid
    · simp [gridLookup, h1]
    · rcases h2 : grid[i]? with _ | row
      · simp [gridLookup, h1, h2]
      · rcases h3 : row[j]? with _ | v
        · simp [gridLookup, h1, h2, h3]
        · simp [gridLookup, h1, h2, h3]
  · simp only [getData, resolvedLookup]
  · simp only [getData, resolvedLookup]
  · simp only [getData, resolvedLookup]
  · simp only [getData, resolvedLookup]
  · simp only [getData, resolvedLookup]
  · simp only [getData, resolvedLookup]
  · simp only [getData, resolvedLookup]
    intro h
    rw [h]
    norm_num
  · simp only [getData, resolvedLookup]
    intro h
    rw [h]
    norm_num
  · simp only [getData, resolvedLookup]
    intro h
    rw [h, round_neg_sentinel]
    norm_num
  · simp only [getData, resolvedLookup]
    intro h
    rw [h]
    norm_num
  · simp only [getData, resolvedLookup]
    intro h
    rw [h]
    norm_num
  · simp only [getData, resolvedLookup]
    intro h
    rw [h]
    norm_num
  · simp only [getData, resolvedLookup]
    intro h
    rw [h, windReconcile_guard_false (by norm_num)]
    norm_num
  · simp only [getData, resolvedLookup]
    intro h
    rw [h, windReconcile_guard_false (by norm_num)]
    norm_num
  · simp only [getData]
    refine ⟨?_, ?_, ?_, ?_, ?_, ?_, ?_, ?_⟩
    · split_ifs with h
      · intro he
        rw [Option.some.injEq] at he
        linarith
      · simp
    · have hnn := windReconcile_speed_nonneg
        (gridLookup d "wind_speed_mps_asc" (findClosestIndex d.lats lat) (findClosestIndex d.lons lon))
        (gridLookup d "wind_cardinal_asc" (findClosestIndex d.lats lat) (findClosestIndex d.lons lon))
        (gridLookup d "wind_speed_mps_dsc" (findClosestIndex d.lats lat) (findClosestIndex d.lons lon))
        (gridLookup d "wind_cardinal_dsc" (findClosestIndex d.lats lat) (findClosestIndex d.lons lon))
      intro he
      rw [Option.some.injEq] at he
      split_ifs at he <;> linarith
    · have hb := dir_bound_aux
        (gridLookup d "wind_speed_mps_asc" (findClosestIndex d.lats lat) (findClosestIndex d.lons lon))
        (gridLookup d "wind_cardinal_asc" (findClosestIndex d.lats lat) (findClosestIndex d.lons lon))
        (gridLookup d "wind_speed_mps_dsc" (findClosestIndex d.lats lat) (findClosestIndex d.lons lon))
        (gridLookup d "wind_cardinal_dsc" (findClosestIndex d.lats lat) (findClosestIndex d.lons lon))
      intro he
      rw [Option.some.injEq] at he
      have := hb.1
      linarith
    · split_ifs with h
      · intro he
        rw [Option.some.injEq] at he
        linarith
      · simp
    · intro he
      rw [Option.some.injEq] at he
      exact round_mul45_ne_sentinel _ he
    · split_ifs with h
      · intro he
        rw [Option.some.injEq] at he
        linarith
      · simp
    · split_ifs with h
      · intro he
        rw [Option.some.injEq] at he
        linarith
      · simp
    · split_ifs with h
      · intro he
        rw [Option.some.injEq] at he
        linarith
      · simp

/-- Witness for the amended claim C5 at the all-channels-absent grid. -/
theorem sparse_lookup_defaults_witness :
    resolvedLookup gEmpty 0 0 "depth" = -9999 ∧
    (getData (some gEmpty) 0 0).depth = none ∧
    resolvedLookup gEmpty 0 0 "wind_speed_mps_asc" = -9999 ∧
    (getData (some gEmpty) 0 0).wind_speed_mps = some 0 := by
  have h1 : resolvedLookup gEmpty 0 0 "depth" = -9999 := by
    simp [resolvedLookup, gridLookup, gEmpty]
  have h2 : resolvedLookup gEmpty 0 0 "wind_speed_mps_asc" = -9999 := by
    simp [resolvedLookup, gridLookup, gEmpty]
  obtain ⟨-, -, -, -, -, -, -, hdep, -, -, -, -, -, hasc, -, -⟩ :=
    sparse_lookup_defaults gEmpty 0 0
  exact ⟨h1, hdep h1, h2, (hasc h2).1⟩

/-- Claim C9, counterexample: the constructor's padding constant is 10,
not 5 — endpoints (10,10) and (20,20) produce the box
(0, 30, 0, 30), not the claimed (5, 25, 5, 25). -/
theorem bounds_padding_counterexample :
    (mkBounds 10 10 20 20).min_lat = 0 ∧ (mkBounds 10 10 20 20).max_lat = 30 ∧
    (mkBounds 10 10 20 20).min_lon = 0 ∧ (mkBounds 10 10 20 20).max_lon = 30 ∧
    (0:ℝ) ≠ 5 := by
  norm_num [mkBounds]

/-- Claim C9 (amended): the constructor computes
`min_lat = max(-90, min(lat1,lat2) - 10)`,
`max_lat = min(90, max(lat1,lat2) + 10)` (each latitude bound clamped on
one side only), and unclamped `min_lon = min(lng1,lng2) - 10`,
`max_lon = max(lng1,lng2) + 10`, with the padding fixed at 10; endpoints
(10,10) and (20,20) give (0, 30, 0, 30); endpoints (-88,0) and (-80,0)
give `min_lat = -90` (clamped from -98). -/
theorem bounds_formula (aLat aLng bLat bLng : ℝ) :
    mkBounds aLat aLng bLat bLng =
      ⟨max (-90) (min aLat bLat - 10), min 90 (max aLat bLat + 10),
        min aLng bLng - 10, max aLng bLng + 10⟩ ∧
    (mkBounds 10 10 20 20).min_lat = 0 ∧
    (mkBounds (-88) 0 (-80) 0).min_lat = -90 := by
  refine ⟨rfl, ?_, ?_⟩ <;> norm_num [mkBounds]

/-- A 1x1 grid whose only channel is `current_speed_mps` with value 2. -/
noncomputable def gCur : GridData where
  lats := [0]
  lons := [0]
  chans := fun name => if name = "current_speed_mps" then some [[2]] else none

/-- Claim C10, counterexample: `current_speed_mps` IS one of the ten
raw channel keys of an ingested grid, so `getEnvDataAtPoint` does
obtain a real value for that one field: on a grid whose
`current_speed_mps` channel holds 2 at the resolved cell, the returned
`current_speed_mps` is 2, not absent. -/
theorem animator_current_speed_counterexample :
    gCur.chans "current_speed_mps" = some [[2]] ∧
    (getEnvDataAtPoint gCur 0 0).current_speed_mps = some 2 ∧
    some (2:ℝ) ≠ none := by
  refine ⟨by simp [gCur], ?_, by simp⟩
  have hlats : gCur.lats = [0] := rfl
  have hlons : gCur.lons = [0] := rfl
  simp [getEnvDataAtPoint, hlats, hlons, fci_single, gCur]

/-- Claim C10 (amended): of the four channel names the animation layer
reads, `wind_direction_deg`, `wind_speed_mps` and
`current_direction_deg` are not keys of an ingested grid (whose channel
keys are the ten raw names), so those three fields of its result are
absent (undefined) on every such grid; `current_speed_mps` however is a
raw channel key, and that field is the optional-chained raw cell of
that channel — the animation layer never obtains wind data or a current
direction from the grid, but can obtain a raw current speed. -/
theorem animator_channels_absent (g : GridData) (lat lon : ℝ)
    (h : ∀ name, name ∉ gridChannelNames → g.chans name = none) :
    (getEnvDataAtPoint g lat lon).wind_direction_deg = none ∧
    (getEnvDataAtPoint g lat lon).wind_speed_mps = none ∧
    (getEnvDataAtPoint g lat lon).current_direction_deg = none ∧
    (getEnvDataAtPoint g lat lon).current_speed_mps =
      ((g.chans "current_speed_mps").bind
        (fun grid => grid.get? (findClosestIndex g.lats lat))).bind
        (fun row => row.get? (findClosestIndex g.lons lon)) := by
  have h1 : g.chans "wind_direction_deg" = none := h _ (by decide)
  have h2 : g.chans "wind_speed_mps" = none := h _ (by decide)
  have h3 : g.chans "current_direction_deg" = none := h _ (by decide)
  refine ⟨?_, ?_, ?_, rfl⟩ <;> simp [getEnvDataAtPoint, h1, h2, h3]

/-- Witness for the amended claim C10 at the all-channels-absent grid. -/
theorem animator_channels_absent_witness :
    (∀ name, name ∉ gridChannelNames → gEmpty.chans name = none) ∧
    (getEnvDataAtPoint gEmpty 0 0).wind_speed_mps = none :=
  ⟨fun _ _ => rfl, (animator_channels_absent gEmpty 0 0 (fun _ _ => rfl)).2.1⟩
